import Mathlib

/-!
# Discord notification channel (`pkg/services/ngalert/notifier/channels/discord.go`)

A shallow embedding of `NewDiscordNotifier` and `DiscordNotifier.Notify`.

* Go values of `simplejson.Json` are modelled by the inductive type `Json`;
  a Go map is an association list read with `List.lookup` and written by
  `Json.Set` (replace the entry of the key, or add it).
* Go `error` values returned by `Notify` are modelled by `Error`; `nil` is `none`.
* What `Notify` calls outside the file (the template engine, the helper
  `joinUrlPath`, `encoding/json`, the message bus handler) are the fields of `Env`.
* `Notify` mutates nothing but its local variables and the transport; the
  transport calls and log lines it makes are recorded in `NotifyOutcome`.
-/

set_option linter.dupNamespace false

namespace Discord

/-! ## JSON values (`simplejson.Json`) -/

/-- The dynamic value held by a `simplejson.Json` (`interface{}` after decoding). -/
inductive Json where
  | null : Json
  | bool (b : Bool) : Json
  | num (n : Int) : Json
  | str (s : String) : Json
  | arr (xs : List Json) : Json
  | obj (kvs : List (String × Json)) : Json

namespace Json

/-- Go `simplejson.New()`: a value holding an empty map. -/
def New : Json := obj []

/-- Go `(*Json).Map`: the fields when the value is a map. -/
def Map : Json → Option (List (String × Json))
  | obj kvs => some kvs
  | _ => none

/-- Go map assignment `m[key] = val` on an association list. -/
def assign (key : String) (val : Json) : List (String × Json) → List (String × Json)
  | [] => [(key, val)]
  | (k, v) :: rest => if k = key then (key, val) :: rest else (k, v) :: assign key val rest

/-- Go `(*Json).Set`: assigns the key when the value is a map, does nothing otherwise. -/
def Set (j : Json) (key : String) (val : Json) : Json :=
  match j with
  | obj kvs => obj (assign key val kvs)
  | other => other

/-- Go `(*Json).CheckGet`: the value under `key` and whether it exists. -/
def CheckGet (j : Json) (key : String) : Option Json :=
  match j.Map with
  | some kvs => kvs.lookup key
  | none => none

/-- Modelled from the spec: `(*Json).Get` of `pkg/components/simplejson`, which is not
among the source files. The spec gives the settings as a JSON object whose fields may
be absent; `Get` yields the value under `key`, and a `Json` holding `nil` when the
receiver is not a map or has no such key. -/
def Get (j : Json) (key : String) : Json :=
  match j.CheckGet key with
  | some v => v
  | none => null

/-- Go `(*Json).String`: type assertion of the held value to `string`. -/
def String? : Json → Option String
  | str s => some s
  | _ => none

/-- Modelled from the spec: `(*Json).MustString` of `pkg/components/simplejson`, which is
not among the source files. It returns the held string when the value is a string and the
default `dflt` otherwise (`MustString()` without argument has default `""`), which is how
`NewDiscordNotifier` and its tests use it: `{}` has url `""`, and a settings object without
`"message"` gets the default message. -/
def MustString (j : Json) (dflt : String) : String :=
  match j.String? with
  | some s => s
  | none => dflt

end Json

/-! ## Errors -/

/-- Go `alerting.ValidationError{Reason: ...}` (only `Reason` is set by this file). -/
structure ValidationError where
  Reason : String
  deriving DecidableEq, Repr

/-- A Go `error` as `Notify` returns it: an error made elsewhere, carried by its
`Error()` text, or `fmt.Errorf(format ++ "%w", inner)`. -/
inductive Error where
  | foreign (text : String) : Error
  | Errorf (format : String) (inner : Error) : Error
  deriving DecidableEq, Repr

/-- Go `err.Error()`; `fmt.Errorf` formats `%w` as the wrapped error's text. -/
def Error.Error : Error → String
  | .foreign text => text
  | .Errorf format inner => format ++ inner.Error

/-! ## Alerts -/

/-- Go `model.AlertStatus`. -/
inductive AlertStatus where
  | firing : AlertStatus
  | resolved : AlertStatus
  deriving DecidableEq, Repr

/-- Go `types.Alert`: labels, annotations and whether `Resolved()` holds at the call. -/
structure Alert where
  Labels : List (String × String)
  Annotations : List (String × String)
  Resolved : Bool
  deriving DecidableEq, Repr

/-- Go `model.Alerts.Status`: firing as soon as one alert is not resolved. -/
def Alerts.Status (as : List Alert) : AlertStatus :=
  if as.any (fun a => !a.Resolved) then AlertStatus.firing else AlertStatus.resolved

/-! ## Go standard library: `strings.TrimLeft`, `strconv.ParseInt` -/

/-- Go `strings.TrimLeft(s, cutset)`. -/
def TrimLeft (s cutset : String) : String :=
  String.mk (s.toList.dropWhile (fun c => cutset.toList.contains c))

/-- The value of a digit character as `strconv.ParseUint` reads it. -/
def digitVal (c : Char) : Option Nat :=
  if 48 ≤ c.toNat ∧ c.toNat ≤ 57 then some (c.toNat - 48)
  else if 97 ≤ c.toNat ∧ c.toNat ≤ 122 then some (c.toNat - 97 + 10)
  else if 65 ≤ c.toNat ∧ c.toNat ≤ 90 then some (c.toNat - 65 + 10)
  else none

/-- The outcome of scanning digits: a value, a syntax error or a range error. -/
inductive Scan where
  | value (n : Nat) : Scan
  | syntaxErr : Scan
  | rangeErr : Scan
  deriving DecidableEq, Repr

/-- The digit loop of `strconv.ParseUint(s, base, 64)` for an explicit base. -/
def scanDigits (base : Nat) : List Char → Nat → Scan
  | [], acc => Scan.value acc
  | c :: cs, acc =>
    match digitVal c with
    | none => Scan.syntaxErr
    | some d =>
      if base ≤ d then Scan.syntaxErr
      else if 2 ^ 64 ≤ acc * base + d then Scan.rangeErr
      else scanDigits base cs (acc * base + d)

/-- Go `strconv.ErrSyntax` and `strconv.ErrRange`, the causes of a `*NumError`. -/
inductive NumError where
  | ErrSyntax : NumError
  | ErrRange : NumError
  deriving DecidableEq, Repr

/-- Go `strconv.ParseInt(s, base, 0)` for an explicit base between 2 and 36: the value
and the error (`none` for `nil`). Bit size 0 is `int`, 64 bits. -/
def ParseInt (s : String) (base : Nat) : Int × Option NumError :=
  match s.toList with
  | [] => (0, some NumError.ErrSyntax)
  | c :: cs =>
    let neg := c = '-'
    let digits := if c = '+' ∨ c = '-' then cs else c :: cs
    match digits with
    | [] => (0, some NumError.ErrSyntax)
    | _ :: _ =>
      match scanDigits base digits 0 with
      | Scan.syntaxErr => (0, some NumError.ErrSyntax)
      | Scan.rangeErr =>
        if neg then (-(2 ^ 63 : Int), some NumError.ErrRange)
        else ((2 ^ 63 : Int) - 1, some NumError.ErrRange)
      | Scan.value un =>
        if ¬ neg ∧ 2 ^ 63 ≤ un then ((2 ^ 63 : Int) - 1, some NumError.ErrRange)
        else if neg ∧ 2 ^ 63 < un then (-(2 ^ 63 : Int), some NumError.ErrRange)
        else if neg then (-(un : Int), none)
        else ((un : Int), none)

/-! ## Helpers of package `channels` that are not among the source files -/

/-- Modelled from the spec: `getAlertStatusColor` and the colour constants of package
`channels` are not among the source files. The spec keys a fixed palette by the status,
red-toned for firing and green-toned otherwise; the firing entry is the one whose value
the tests expect (`14037554`, that is `D63232` in base 16). -/
def getAlertStatusColor (status : AlertStatus) : String :=
  if status = AlertStatus.firing then "#D63232" else "#36a64f"

/-- Modelled from the spec: `joinUrlPath` of package `channels` is not among the source
files. The spec joins the base URL with the path, the result being the base followed by
the path, and fails when the base URL is malformed; `parse` is the check of `net/url`,
giving the error for a malformed text. -/
def joinUrlPath (parse : String → Option Error) (base additionalPath : String) :
    Except Error String :=
  match parse base with
  | some err => Except.error err
  | none => Except.ok (base ++ additionalPath)

/-! ## The notifier -/

/-- Go `NotificationChannelConfig`, the fields `NewDiscordNotifier` reads. -/
structure NotificationChannelConfig where
  UID : String
  Name : String
  Typ : String
  DisableResolveMessage : Bool
  Settings : Option Json
  SecureSettings : List (String × String)

/-- Go `template.Template`: `ExternalURL` holds the text `ExternalURL.String()` returns;
`id` stands for the parsed template set. -/
structure Template where
  ExternalURL : String
  id : Nat
  deriving DecidableEq, Repr

/-- Go `models.AlertNotification` as `NewDiscordNotifier` fills it for `NewNotifierBase`. -/
structure NotifierBase where
  Uid : String
  Name : String
  Typ : String
  DisableResolveMessage : Bool
  Settings : Option Json
  SecureSettings : List (String × String)

/-- Go `DiscordNotifier` (the logger is fixed and left out). -/
structure DiscordNotifier where
  base : NotifierBase
  tmpl : Template
  Content : String
  AvatarURL : String
  WebhookURL : String

/-- The default of the `"message"` setting. -/
def defaultMessage : String := "\x7b\x7b template \"default.message\" . \x7d\x7d"

/-- Go `NewDiscordNotifier`. -/
def NewDiscordNotifier (model : NotificationChannelConfig) (t : Template) :
    Except ValidationError DiscordNotifier :=
  match model.Settings with
  | none => Except.error { Reason := "No Settings Supplied" }
  | some settings =>
    let avatarURL := (settings.Get "avatar_url").MustString ""
    let discordURL := (settings.Get "url").MustString ""
    if discordURL = "" then
      Except.error { Reason := "Could not find webhook url property in settings" }
    else
      let content := (settings.Get "message").MustString defaultMessage
      Except.ok
        { base :=
            { Uid := model.UID
              Name := model.Name
              Typ := model.Typ
              DisableResolveMessage := model.DisableResolveMessage
              Settings := model.Settings
              SecureSettings := model.SecureSettings }
          Content := content
          AvatarURL := avatarURL
          WebhookURL := discordURL
          tmpl := t }

/-- Go `DiscordNotifier.SendResolved`. -/
def DiscordNotifier.SendResolved (d : DiscordNotifier) : Bool :=
  !d.base.DisableResolveMessage

/-! ## Notify -/

/-- Go `context.Context` as `notify.GetTemplateData` reads it. -/
structure Context where
  groupKey : String
  groupLabels : List (String × String)
  deriving DecidableEq, Repr

/-- Go `models.SendWebhookSync`, the fields `Notify` sets. -/
structure SendWebhookSync where
  Url : String
  HttpMethod : String
  ContentType : String
  Body : String
  deriving DecidableEq, Repr

/-- The collaborators of `Notify` outside the file.
* `execute t ctx as text` parses the non-empty `text` in the template set `t` and runs it
  on `notify.GetTemplateData(ctx, t, as, logger)`: the text written and the error.
* `joinUrlPath` is the helper `joinUrlPath` of package `channels`, which is not among
  the source files: the joined URL or the error.
* `Marshal` is `json.Marshal`.
* `DispatchCtx` is the handler `bus.DispatchCtx` runs for the command.
* `BuildVersion` is `setting.BuildVersion`. -/
structure Env where
  execute : Template → Context → List Alert → String → String × Option Error
  joinUrlPath : String → String → Except Error String
  Marshal : Json → Except Error String
  DispatchCtx : SendWebhookSync → Option Error
  BuildVersion : String

/-- Go `(*template.Template).ExecuteTextString(text, data)` of Alertmanager, with
`data = notify.GetTemplateData(ctx, t, as, logger)`: the empty text renders to `""`
without error, any other text is parsed and executed. -/
def ExecuteTextString (env : Env) (t : Template) (ctx : Context) (as : List Alert)
    (text : String) : String × Option Error :=
  if text = "" then ("", none) else env.execute t ctx as text

/-- Go `notify.TmplText(tmpl, data, &err)`: the closure called with `name` when the error
slot holds `slot`; it returns the text and the new content of the slot. Once the slot is
set the closure returns `""` and leaves the slot alone. -/
def TmplText (exec : String → String × Option Error) (slot : Option Error) (name : String) :
    String × Option Error :=
  match slot with
  | some err => ("", some err)
  | none => exec name

/-- What lines 68 to 92 of `Notify` leave behind: the body, the embed and the error slot. -/
structure Assembled where
  bodyJSON : Json
  embed : Json
  tmplErr : Option Error

/-- The title template of the embed. -/
def titleTemplate : String := "\x7b\x7b template \"default.title\" . \x7d\x7d"

/-- Lines 65 to 92 of `Notify`: everything set before the URL is joined. -/
def Notify.assemble (env : Env) (d : DiscordNotifier) (ctx : Context) (as : List Alert) :
    Assembled :=
  let alerts := as
  let bodyJSON := Json.New.Set "username" (Json.str "Grafana")
  let tmplErr : Option Error := none
  let tmpl := TmplText (ExecuteTextString env d.tmpl ctx as)
  let r1 : Json × Option Error :=
    if d.Content ≠ "" then
      (bodyJSON.Set "content" (Json.str (tmpl tmplErr d.Content).1), (tmpl tmplErr d.Content).2)
    else (bodyJSON, tmplErr)
  let r2 : Json × Option Error :=
    if d.AvatarURL ≠ "" then
      (r1.1.Set "avatar_url" (Json.str (tmpl r1.2 d.AvatarURL).1), (tmpl r1.2 d.AvatarURL).2)
    else r1
  let footer := Json.obj
    [("text", Json.str ("Grafana v" ++ env.BuildVersion)),
     ("icon_url", Json.str "https://grafana.com/assets/img/fav32.png")]
  let title := tmpl r2.2 titleTemplate
  let embed := Json.New.Set "title" (Json.str title.1)
  let embed := embed.Set "footer" footer
  let embed := embed.Set "type" (Json.str "rich")
  let color := (ParseInt (TrimLeft (getAlertStatusColor (Alerts.Status alerts)) "#") 16).1
  let embed := embed.Set "color" (Json.num color)
  { bodyJSON := r2.1, embed := embed, tmplErr := title.2 }

/-- Lines 65 to 104 of `Notify`: the payload, or the error that ends the build. -/
def Notify.build (env : Env) (d : DiscordNotifier) (ctx : Context) (as : List Alert) :
    Except Error Json :=
  let a := Notify.assemble env d ctx as
  match env.joinUrlPath d.tmpl.ExternalURL "/alerting/list" with
  | Except.error err => Except.error err
  | Except.ok ruleURL =>
    let embed := a.embed.Set "url" (Json.str ruleURL)
    let bodyJSON := a.bodyJSON.Set "embeds" (Json.arr [embed])
    match a.tmplErr with
    | some tmplErr => Except.error (Error.Errorf "failed to template discord message: " tmplErr)
    | none => Except.ok bodyJSON

/-- The result of `Notify`: the returned pair, the commands handed to the transport in
order, and the errors logged. -/
structure NotifyOutcome where
  delivered : Bool
  err : Option Error
  sent : List SendWebhookSync
  logged : List Error
  deriving DecidableEq, Repr

/-- Go `DiscordNotifier.Notify`. -/
def Notify (env : Env) (d : DiscordNotifier) (ctx : Context) (as : List Alert) :
    NotifyOutcome :=
  match Notify.build env d ctx as with
  | Except.error err => { delivered := false, err := some err, sent := [], logged := [] }
  | Except.ok bodyJSON =>
    match env.Marshal bodyJSON with
    | Except.error err => { delivered := false, err := some err, sent := [], logged := [] }
    | Except.ok body =>
      let cmd : SendWebhookSync :=
        { Url := d.WebhookURL, HttpMethod := "POST", ContentType := "application/json", Body := body }
      match env.DispatchCtx cmd with
      | some err => { delivered := false, err := some err, sent := [cmd], logged := [err] }
      | none => { delivered := true, err := none, sent := [cmd], logged := [] }

/-- The first element of `embeds` in a payload. -/
def firstEmbed (body : Json) : Json :=
  match body.Get "embeds" with
  | Json.arr (e :: _) => e
  | _ => Json.null

/-! ## An environment for concrete runs

The collaborators as the tests of `discord_test.go` see them: the template engine answers
the templates the tests use, the handler accepts every command. -/

/-- Escaping of a string inside the compact encoding: quote, backslash and newline. -/
def escape : List Char → List Char
  | [] => []
  | c :: cs =>
    if c = '"' then '\\' :: '"' :: escape cs
    else if c = '\\' then '\\' :: '\\' :: escape cs
    else if c = '\n' then '\\' :: 'n' :: escape cs
    else c :: escape cs

/-- Quoted string of the compact encoding. -/
def quoted (s : String) : String :=
  "\"" ++ String.mk (escape s.toList) ++ "\""

mutual
/-- A compact JSON encoding of a value, fields in the order held. -/
def encode : Json → String
  | Json.null => "null"
  | Json.bool b => if b then "true" else "false"
  | Json.num n => toString n
  | Json.str s => quoted s
  | Json.arr xs => "[" ++ encodeItems xs ++ "]"
  | Json.obj kvs => "\x7b" ++ encodeFields kvs ++ "\x7d"
/-- The items of an array, separated by commas. -/
def encodeItems : List Json → String
  | [] => ""
  | [x] => encode x
  | x :: y :: rest => encode x ++ "," ++ encodeItems (y :: rest)
/-- The fields of an object, separated by commas. -/
def encodeFields : List (String × Json) → String
  | [] => ""
  | [(k, v)] => quoted k ++ ":" ++ encode v
  | (k, v) :: kv :: rest => quoted k ++ ":" ++ encode v ++ "," ++ encodeFields (kv :: rest)
end

/-- The message template of the test "Error in building messsage". -/
def brokenMessage : String := "\x7b\x7b .Status \x7d"

/-- The message template of the test "Custom config with multiple alerts". -/
def countMessage : String :=
  "\x7b\x7b len .Alerts.Firing \x7d\x7d alerts are firing, \x7b\x7b len .Alerts.Resolved \x7d\x7d are resolved"

/-- The labels shared, with their values, by every alert of the group. -/
def commonLabels : List Alert → List (String × String)
  | [] => []
  | a :: rest => a.Labels.filter (fun kv => rest.all (fun b => b.Labels.lookup kv.1 = some kv.2))

/-- The default title as the tests show it: status and firing count, the values of the
group labels, and the values of the common labels that are not group labels. -/
def testTitle (ctx : Context) (as : List Alert) : String :=
  let firing := as.filter (fun a => !a.Resolved)
  let common := commonLabels as
  let extra := common.filter (fun kv => (ctx.groupLabels.lookup kv.1).isNone)
  "[" ++ (if Alerts.Status as = AlertStatus.firing then "FIRING:" ++ toString firing.length
          else "RESOLVED")
    ++ "] " ++ " ".intercalate (ctx.groupLabels.map Prod.snd) ++ " "
    ++ (if ctx.groupLabels.length < common.length then
          "(" ++ " ".intercalate (extra.map Prod.snd) ++ ")"
        else "")

/-- The template engine as the tests record it: the parse error of `brokenMessage`, the
counts of `countMessage`, the default message of the first test, the default title, and
a text without actions rendered as itself. -/
def testExecute (_t : Template) (ctx : Context) (as : List Alert) (text : String) :
    String × Option Error :=
  if text = brokenMessage then
    ("", some (Error.foreign "template: :1: unexpected \"\x7d\" in operand"))
  else if text = countMessage then
    (toString (as.filter (fun a => !a.Resolved)).length ++ " alerts are firing, "
      ++ toString (as.filter (fun a => a.Resolved)).length ++ " are resolved", none)
  else if text = defaultMessage then
    ("\n**Firing**\nLabels:\n - alertname = alert1\n - lbl1 = val1\nAnnotations:\n - ann1 = annv1\nSource: \n\n\n\n\n", none)
  else if text = titleTemplate then (testTitle ctx as, none)
  else (text, none)

/-- A base URL text that `net/url` refuses: an escaped space in the host. -/
def badURL : String := "http://local%20host"

/-- The check of `net/url` on the texts used here. -/
def testParse (base : String) : Option Error :=
  if base = badURL then
    some (Error.foreign "parse \"http://local%20host\": invalid URL escape \"%20\"")
  else none

/-- The environment of the tests, with a handler that accepts every command. -/
def testEnv : Env :=
  { execute := testExecute
    joinUrlPath := joinUrlPath testParse
    Marshal := fun j => Except.ok (encode j)
    DispatchCtx := fun _ => none
    BuildVersion := "" }

/-- The environment of the tests with a handler that refuses every command. -/
def downEnv : Env :=
  { testEnv with DispatchCtx := fun _ => some (Error.foreign "connection refused") }

/-- The template set of the tests, external URL `http://localhost`. -/
def testTmpl : Template := { ExternalURL := "http://localhost", id := 0 }

/-- The context of the tests. -/
def testCtx : Context := { groupKey := "alertname", groupLabels := [("alertname", "")] }

/-- The first alert of the tests. -/
def testAlert : Alert :=
  { Labels := [("alertname", "alert1"), ("lbl1", "val1")]
    Annotations := [("ann1", "annv1")]
    Resolved := false }

/-- The channel configuration of the tests around the given settings. -/
def testModel (settings : Json) : NotificationChannelConfig :=
  { UID := ""
    Name := "discord_testing"
    Typ := "discord"
    DisableResolveMessage := false
    Settings := some settings
    SecureSettings := [] }

/-- The second alert of the test "Custom config with multiple alerts". -/
def testAlert2 : Alert :=
  { Labels := [("alertname", "alert1"), ("lbl1", "val2")]
    Annotations := [("ann1", "annv2")]
    Resolved := false }

/-- A notifier with the given message, avatar and webhook over the given template set. -/
def notifierOf (t : Template) (content avatar webhook : String) : DiscordNotifier :=
  { base :=
      { Uid := ""
        Name := "discord_testing"
        Typ := "discord"
        DisableResolveMessage := false
        Settings := none
        SecureSettings := [] }
    tmpl := t
    Content := content
    AvatarURL := avatar
    WebhookURL := webhook }

/-! ## Go `strings.TrimSpace`, used to state what trimming would do -/

/-- Go `unicode.IsSpace`. -/
def isSpace (c : Char) : Bool :=
  c.toNat = 9 || c.toNat = 10 || c.toNat = 11 || c.toNat = 12 || c.toNat = 13 || c.toNat = 32
    || c.toNat = 0x85 || c.toNat = 0xA0 || c.toNat = 0x1680
    || (0x2000 ≤ c.toNat && c.toNat ≤ 0x200A)
    || c.toNat = 0x2028 || c.toNat = 0x2029 || c.toNat = 0x202F || c.toNat = 0x205F
    || c.toNat = 0x3000

/-- Go `strings.TrimSpace`. -/
def TrimSpace (s : String) : String :=
  String.mk ((s.toList.dropWhile isSpace).reverse.dropWhile isSpace).reverse

/-! ## Names used in the statements -/

/-- The error of `NewDiscordNotifier` for settings without a webhook url. -/
def missingURL : ValidationError :=
  { Reason := "Could not find webhook url property in settings" }

/-- The colour `Notify` computes for a status. -/
def colorOf (status : AlertStatus) : Int :=
  (ParseInt (TrimLeft (getAlertStatusColor status) "#") 16).1

/-- The command of lines 110 to 115 of `Notify` for a serialised body. -/
def Notify.cmd (d : DiscordNotifier) (body : String) : SendWebhookSync :=
  { Url := d.WebhookURL, HttpMethod := "POST", ContentType := "application/json", Body := body }

/-! # Theorems -/

/-! ## Reading back what `Set` wrote -/

theorem lookup_assign_same (key : String) (val : Json) (kvs : List (String × Json)) :
    (Json.assign key val kvs).lookup key = some val := by
  induction kvs with
  | nil => simp [Json.assign, List.lookup]
  | cons kv rest ih =>
    obtain ⟨k, v⟩ := kv
    by_cases h : k = key
    · simp [Json.assign, h, List.lookup]
    · have h2 : (key == k) = false := by
        simpa using fun e => h e.symm
      simp [Json.assign, h, List.lookup, h2, ih]

theorem lookup_assign_other (key other : String) (val : Json) (kvs : List (String × Json))
    (hne : other ≠ key) :
    (Json.assign key val kvs).lookup other = kvs.lookup other := by
  induction kvs with
  | nil =>
    have h2 : (other == key) = false := by simpa using hne
    simp [Json.assign, List.lookup, h2]
  | cons kv rest ih =>
    obtain ⟨k, v⟩ := kv
    by_cases h : k = key
    · subst h
      have h2 : (other == k) = false := by simpa using hne
      simp [Json.assign, List.lookup, h2]
    · by_cases h3 : other = k
      · subst h3
        simp [Json.assign, h, List.lookup]
      · have h4 : (other == k) = false := by simpa using h3
        simp [Json.assign, h, List.lookup, h4, ih]

theorem CheckGet_Set_same (kvs : List (String × Json)) (key : String) (val : Json) :
    ((Json.obj kvs).Set key val).CheckGet key = some val := by
  simp [Json.Set, Json.CheckGet, Json.Map, lookup_assign_same]

theorem CheckGet_Set_other (kvs : List (String × Json)) (key other : String) (val : Json)
    (hne : other ≠ key) :
    ((Json.obj kvs).Set key val).CheckGet other = (Json.obj kvs).CheckGet other := by
  simp [Json.Set, Json.CheckGet, Json.Map, lookup_assign_other _ _ _ _ hne]

/-! ## `NewDiscordNotifier` -/

theorem MustString_of_CheckGet_str (settings : Json) (key s dflt : String)
    (h : settings.CheckGet key = some (Json.str s)) :
    (settings.Get key).MustString dflt = s := by
  simp [Json.Get, h, Json.MustString, Json.String?]

theorem MustString_of_CheckGet_none (settings : Json) (key dflt : String)
    (h : settings.CheckGet key = none) :
    (settings.Get key).MustString dflt = dflt := by
  simp [Json.Get, h, Json.MustString, Json.String?]

theorem MustString_of_CheckGet_other (settings : Json) (key dflt : String) (v : Json)
    (h : settings.CheckGet key = some v) (hv : ∀ s, v ≠ Json.str s) :
    (settings.Get key).MustString dflt = dflt := by
  cases v with
  | str s => exact absurd rfl (hv s)
  | null => simp [Json.Get, h, Json.MustString, Json.String?]
  | bool b => simp [Json.Get, h, Json.MustString, Json.String?]
  | num n => simp [Json.Get, h, Json.MustString, Json.String?]
  | arr xs => simp [Json.Get, h, Json.MustString, Json.String?]
  | obj kvs => simp [Json.Get, h, Json.MustString, Json.String?]

/-- The url read by `NewDiscordNotifier` is empty exactly when the settings hold no
non-empty string under `"url"`. -/
theorem url_empty_iff (settings : Json) :
    (settings.Get "url").MustString "" = "" ↔
      ¬ ∃ u, u ≠ "" ∧ settings.CheckGet "url" = some (Json.str u) := by
  cases h : settings.CheckGet "url" with
  | none => simp [MustString_of_CheckGet_none _ _ _ h]
  | some v =>
    by_cases hv : ∃ s, v = Json.str s
    · obtain ⟨s, rfl⟩ := hv
      rw [MustString_of_CheckGet_str _ _ _ _ h]
      constructor
      · rintro rfl ⟨u, hu, he⟩
        simp only [Option.some.injEq, Json.str.injEq] at he
        exact hu he.symm
      · intro hn
        by_contra hs
        exact hn ⟨s, hs, rfl⟩
    · have hv2 : ∀ s, v ≠ Json.str s := fun s e => hv ⟨s, e⟩
      rw [MustString_of_CheckGet_other _ _ _ _ h hv2]
      simp only [true_iff]
      rintro ⟨u, _, he⟩
      simp only [Option.some.injEq] at he
      exact hv2 u he

/-- C3: for settings that are not nil and hold no webhook url (the key `"url"` is absent,
its value is not a string, or it is the empty string), `NewDiscordNotifier` returns no
notifier and the validation error whose reason is
"Could not find webhook url property in settings". -/
theorem NewDiscordNotifier_missing_url (model : NotificationChannelConfig) (t : Template)
    (settings : Json) (hs : model.Settings = some settings)
    (hurl : settings.CheckGet "url" = none ∨
      (∃ v, settings.CheckGet "url" = some v ∧ ∀ u, v ≠ Json.str u) ∨
      settings.CheckGet "url" = some (Json.str "")) :
    NewDiscordNotifier model t =
      Except.error { Reason := "Could not find webhook url property in settings" } := by
  have hempty : (settings.Get "url").MustString "" = "" := by
    rcases hurl with h | ⟨v, h, hv⟩ | h
    · exact MustString_of_CheckGet_none _ _ _ h
    · exact MustString_of_CheckGet_other _ _ _ _ h hv
    · exact MustString_of_CheckGet_str _ _ _ _ h
  simp [NewDiscordNotifier, hs, hempty]

/-- C3 at the settings `{}` of the test "Error in initialization". -/
theorem NewDiscordNotifier_missing_url_witness :
    NewDiscordNotifier (testModel (Json.obj [])) testTmpl =
      Except.error { Reason := "Could not find webhook url property in settings" } :=
  NewDiscordNotifier_missing_url (testModel (Json.obj [])) testTmpl (Json.obj []) rfl
    (Or.inl rfl)

/-- C8, as stated, fails: the url `" "` is empty after trimming, yet `NewDiscordNotifier`
returns a notifier whose webhook url is `" "`. -/
theorem NewDiscordNotifier_blank_url_accepted :
    TrimSpace " " = "" ∧
      NewDiscordNotifier (testModel (Json.obj [("url", Json.str " ")])) testTmpl ≠
        Except.error missingURL ∧
      ∃ d, NewDiscordNotifier (testModel (Json.obj [("url", Json.str " ")])) testTmpl =
          Except.ok d ∧ d.WebhookURL = " " := by
  refine ⟨by decide, ?_, ?_⟩
  · simp [NewDiscordNotifier, testModel, Json.Get, Json.CheckGet, Json.Map, List.lookup,
      Json.MustString, Json.String?]
  · simp [NewDiscordNotifier, testModel, Json.Get, Json.CheckGet, Json.Map, List.lookup,
      Json.MustString, Json.String?]

/-- C8, amended: `NewDiscordNotifier` fails with the missing-webhook-url error exactly when
the settings hold no non-empty string under `"url"` (the key is absent, its value is not a
string, or it is the empty string); the url is not trimmed, and every non-empty url, made
of spaces or not, gives a notifier that stores it unchanged. -/
theorem NewDiscordNotifier_fails_iff_no_url (model : NotificationChannelConfig)
    (t : Template) (settings : Json) (hs : model.Settings = some settings) :
    (NewDiscordNotifier model t = Except.error missingURL ↔
        ¬ ∃ u, u ≠ "" ∧ settings.CheckGet "url" = some (Json.str u)) ∧
      ∀ u, u ≠ "" → settings.CheckGet "url" = some (Json.str u) →
        ∃ d, NewDiscordNotifier model t = Except.ok d ∧ d.WebhookURL = u := by
  constructor
  · rw [← url_empty_iff]
    by_cases h : (settings.Get "url").MustString "" = ""
    · simp [NewDiscordNotifier, hs, h, missingURL]
    · simp [NewDiscordNotifier, hs, h]
  · intro u hu hget
    have h : (settings.Get "url").MustString "" = u := MustString_of_CheckGet_str _ _ _ _ hget
    simp [NewDiscordNotifier, hs, h, hu]

/-- C8 amended, at the settings `{"url": "   "}`: no error, the spaces are the webhook. -/
theorem NewDiscordNotifier_fails_iff_no_url_witness :
    ∃ d, NewDiscordNotifier (testModel (Json.obj [("url", Json.str "   ")])) testTmpl =
      Except.ok d ∧ d.WebhookURL = "   " :=
  (NewDiscordNotifier_fails_iff_no_url (testModel (Json.obj [("url", Json.str "   ")]))
    testTmpl (Json.obj [("url", Json.str "   ")]) rfl).2 "   " (by decide) rfl

/-- C9, as stated, fails: with `"message"` set to the empty string the notifier holds the
empty message, not the reference to the default message template. -/
theorem NewDiscordNotifier_empty_message_kept :
    ∃ d, NewDiscordNotifier
        (testModel (Json.obj [("url", Json.str "http://localhost"), ("message", Json.str "")]))
        testTmpl = Except.ok d ∧ d.Content = "" ∧ d.Content ≠ defaultMessage := by
  simp [NewDiscordNotifier, testModel, Json.Get, Json.CheckGet, Json.Map, List.lookup,
    Json.MustString, Json.String?, defaultMessage]

/-- C9, amended: for settings with a non-empty string under `"url"`, the notifier built by
`NewDiscordNotifier` holds the reference to the default message template when `"message"` is
absent or is not a string, and holds every string value of `"message"` unchanged, the
empty string included. -/
theorem NewDiscordNotifier_message (model : NotificationChannelConfig) (t : Template)
    (settings : Json) (u : String) (hs : model.Settings = some settings)
    (hurl : settings.CheckGet "url" = some (Json.str u)) (hu : u ≠ "") :
    ∃ d, NewDiscordNotifier model t = Except.ok d ∧
      (settings.CheckGet "message" = none → d.Content = defaultMessage) ∧
      (∀ v, settings.CheckGet "message" = some v → (∀ m, v ≠ Json.str m) →
        d.Content = defaultMessage) ∧
      (∀ m, settings.CheckGet "message" = some (Json.str m) → d.Content = m) := by
  have h : (settings.Get "url").MustString "" = u := MustString_of_CheckGet_str _ _ _ _ hurl
  refine ⟨_, by simp only [NewDiscordNotifier, hs, h, hu, if_false]; rfl, ?_, ?_, ?_⟩
  · intro hm
    exact MustString_of_CheckGet_none _ _ _ hm
  · intro v hm hv
    exact MustString_of_CheckGet_other _ _ _ _ hm hv
  · intro m hm
    exact MustString_of_CheckGet_str _ _ _ _ hm

/-- C9 amended, at the settings of the test "Default config with one alert": no
`"message"`, so the notifier holds the reference to the default message template. -/
theorem NewDiscordNotifier_message_witness :
    ∃ d, NewDiscordNotifier (testModel (Json.obj [("url", Json.str "http://localhost")]))
        testTmpl = Except.ok d ∧ d.Content = defaultMessage := by
  obtain ⟨d, hd, hnone, _, _⟩ :=
    NewDiscordNotifier_message (testModel (Json.obj [("url", Json.str "http://localhost")]))
      testTmpl (Json.obj [("url", Json.str "http://localhost")]) "http://localhost" rfl rfl
      (by decide)
  exact ⟨d, hd, hnone rfl⟩

/-! ## `Notify`: the render pass -/

/-- The embed before the URL is joined: title, footer, type and colour. -/
theorem assemble_embed (env : Env) (d : DiscordNotifier) (ctx : Context) (as : List Alert) :
    ∃ title : String, (Notify.assemble env d ctx as).embed = Json.obj
      [("title", Json.str title),
       ("footer", Json.obj
          [("text", Json.str ("Grafana v" ++ env.BuildVersion)),
           ("icon_url", Json.str "https://grafana.com/assets/img/fav32.png")]),
       ("type", Json.str "rich"),
       ("color", Json.num (colorOf (Alerts.Status as)))] := by
  exact ⟨_, rfl⟩

/-- The body before the embeds are set: the username, then the content and the avatar
when configured. -/
theorem assemble_bodyJSON (env : Env) (d : DiscordNotifier) (ctx : Context) (as : List Alert) :
    ∃ content avatar : String, (Notify.assemble env d ctx as).bodyJSON = Json.obj
      (("username", Json.str "Grafana") ::
        ((if d.Content ≠ "" then [("content", Json.str content)] else []) ++
         (if d.AvatarURL ≠ "" then [("avatar_url", Json.str avatar)] else []))) := by
  by_cases hc : d.Content = "" <;> by_cases ha : d.AvatarURL = "" <;>
    simp [Notify.assemble, Json.Set, Json.New, Json.assign, hc, ha]

/-- The username is set first and never overwritten. -/
theorem assemble_username (env : Env) (d : DiscordNotifier) (ctx : Context) (as : List Alert) :
    (Notify.assemble env d ctx as).bodyJSON.CheckGet "username" = some (Json.str "Grafana") := by
  by_cases hc : d.Content = "" <;> by_cases ha : d.AvatarURL = "" <;>
    simp [Notify.assemble, Json.Set, Json.New, Json.assign, hc, ha, Json.CheckGet, Json.Map,
      List.lookup]

/-- The content is the first render of the pass, present exactly for a non-empty message. -/
theorem assemble_content (env : Env) (d : DiscordNotifier) (ctx : Context) (as : List Alert) :
    (Notify.assemble env d ctx as).bodyJSON.CheckGet "content" =
      if d.Content ≠ "" then
        some (Json.str (ExecuteTextString env d.tmpl ctx as d.Content).1)
      else none := by
  by_cases hc : d.Content = "" <;> by_cases ha : d.AvatarURL = "" <;>
    simp [Notify.assemble, Json.Set, Json.New, Json.assign, hc, ha, Json.CheckGet, Json.Map,
      List.lookup, TmplText]

/-- A message whose render fails sets the error slot for the rest of the pass. -/
theorem assemble_content_err (env : Env) (d : DiscordNotifier) (ctx : Context)
    (as : List Alert) (err : Error)
    (h : (ExecuteTextString env d.tmpl ctx as d.Content).2 = some err) :
    (Notify.assemble env d ctx as).tmplErr = some err := by
  have hc : d.Content ≠ "" := by
    intro h0
    simp [ExecuteTextString, h0] at h
  by_cases ha : d.AvatarURL = "" <;>
    simp [Notify.assemble, hc, ha, TmplText, h]

/-- A pass that ends with the slot unset made every render with the slot unset, and none
of them failed. -/
theorem assemble_tmplErr_none (env : Env) (d : DiscordNotifier) (ctx : Context)
    (as : List Alert) (h : (Notify.assemble env d ctx as).tmplErr = none) :
    (ExecuteTextString env d.tmpl ctx as d.Content).2 = none ∧
    (ExecuteTextString env d.tmpl ctx as d.AvatarURL).2 = none ∧
    (ExecuteTextString env d.tmpl ctx as titleTemplate).2 = none := by
  have hempty : (ExecuteTextString env d.tmpl ctx as "").2 = none := by
    simp [ExecuteTextString]
  by_cases hc : d.Content = "" <;> by_cases ha : d.AvatarURL = ""
  · simp only [Notify.assemble, hc, ha, ne_eq, not_true_eq_false, if_false, TmplText] at h
    simp [hc, ha, hempty, h]
  · cases h2 : (ExecuteTextString env d.tmpl ctx as d.AvatarURL).2 with
    | none =>
      simp only [Notify.assemble, hc, ha, ne_eq, not_true_eq_false, not_false_eq_true,
        if_false, if_true, TmplText, h2] at h
      simp [hc, hempty, h]
    | some e =>
      simp [Notify.assemble, hc, ha, TmplText, h2] at h
  · cases h1 : (ExecuteTextString env d.tmpl ctx as d.Content).2 with
    | none =>
      simp only [Notify.assemble, hc, ha, ne_eq, not_true_eq_false, not_false_eq_true,
        if_false, if_true, TmplText, h1] at h
      simp [ha, hempty, h]
    | some e =>
      simp [Notify.assemble, hc, ha, TmplText, h1] at h
  · cases h1 : (ExecuteTextString env d.tmpl ctx as d.Content).2 with
    | none =>
      cases h2 : (ExecuteTextString env d.tmpl ctx as d.AvatarURL).2 with
      | none =>
        simp only [Notify.assemble, hc, ha, ne_eq, not_true_eq_false, not_false_eq_true,
          if_false, if_true, TmplText, h1, h2] at h
        simp [h]
      | some e =>
        simp [Notify.assemble, hc, ha, TmplText, h1, h2] at h
    | some e =>
      simp [Notify.assemble, hc, ha, TmplText, h1] at h

/-- The avatar is present exactly for a non-empty avatar URL; in a pass without error it
is the render of the avatar URL. -/
theorem assemble_avatar (env : Env) (d : DiscordNotifier) (ctx : Context) (as : List Alert)
    (h : (Notify.assemble env d ctx as).tmplErr = none) :
    (Notify.assemble env d ctx as).bodyJSON.CheckGet "avatar_url" =
      if d.AvatarURL ≠ "" then
        some (Json.str (ExecuteTextString env d.tmpl ctx as d.AvatarURL).1)
      else none := by
  have h1 := (assemble_tmplErr_none env d ctx as h).1
  by_cases hc : d.Content = "" <;> by_cases ha : d.AvatarURL = "" <;>
    simp [Notify.assemble, Json.Set, Json.New, Json.assign, hc, ha, Json.CheckGet, Json.Map,
      List.lookup, TmplText, h1]

/-- A successful build: the URL joined, the slot unset, and the body with its embeds. -/
theorem build_ok_iff (env : Env) (d : DiscordNotifier) (ctx : Context) (as : List Alert)
    (bodyJSON : Json) :
    Notify.build env d ctx as = Except.ok bodyJSON ↔
      ∃ ruleURL, env.joinUrlPath d.tmpl.ExternalURL "/alerting/list" = Except.ok ruleURL ∧
        (Notify.assemble env d ctx as).tmplErr = none ∧
        bodyJSON = (Notify.assemble env d ctx as).bodyJSON.Set "embeds"
          (Json.arr [(Notify.assemble env d ctx as).embed.Set "url" (Json.str ruleURL)]) := by
  unfold Notify.build
  cases hj : env.joinUrlPath d.tmpl.ExternalURL "/alerting/list" with
  | error e => simp
  | ok ruleURL =>
    cases ht : (Notify.assemble env d ctx as).tmplErr with
    | none => simp [ht, eq_comm]
    | some e => simp [ht]

/-- The build fails with the join error whenever the join fails. -/
theorem build_join_error (env : Env) (d : DiscordNotifier) (ctx : Context) (as : List Alert)
    (err : Error)
    (h : env.joinUrlPath d.tmpl.ExternalURL "/alerting/list" = Except.error err) :
    Notify.build env d ctx as = Except.error err := by
  simp [Notify.build, h]

/-- The build fails with the wrapped template error when the join succeeds and the slot
is set. -/
theorem build_tmpl_error (env : Env) (d : DiscordNotifier) (ctx : Context) (as : List Alert)
    (ruleURL : String) (err : Error)
    (hjoin : env.joinUrlPath d.tmpl.ExternalURL "/alerting/list" = Except.ok ruleURL)
    (h : (Notify.assemble env d ctx as).tmplErr = some err) :
    Notify.build env d ctx as =
      Except.error (Error.Errorf "failed to template discord message: " err) := by
  simp [Notify.build, hjoin, h]

/-- A failed build ends `Notify` with that error and nothing sent. -/
theorem Notify_of_build_error (env : Env) (d : DiscordNotifier) (ctx : Context)
    (as : List Alert) (err : Error) (h : Notify.build env d ctx as = Except.error err) :
    Notify env d ctx as = { delivered := false, err := some err, sent := [], logged := [] } := by
  simp [Notify, h]

/-! ## `Notify`: the claims -/

/-- C2: when the payload build succeeds (the URL is joined, the error slot is unset and the
payload is serialised), `Notify` hands the transport exactly one command, with method
`POST`, the webhook URL of the notifier, content type `application/json` and the serialised
payload as body; it returns `(true, nil)` when the transport accepts and `(false, err)`
with the error of the transport when it refuses, so it delivered exactly when it returns
no error. -/
theorem Notify_dispatch (env : Env) (d : DiscordNotifier) (ctx : Context) (as : List Alert)
    (ruleURL body : String)
    (hjoin : env.joinUrlPath d.tmpl.ExternalURL "/alerting/list" = Except.ok ruleURL)
    (htmpl : (Notify.assemble env d ctx as).tmplErr = none)
    (hmarshal : env.Marshal ((Notify.assemble env d ctx as).bodyJSON.Set "embeds"
        (Json.arr [(Notify.assemble env d ctx as).embed.Set "url" (Json.str ruleURL)])) =
      Except.ok body) :
    (Notify env d ctx as).sent = [Notify.cmd d body] ∧
      (Notify.cmd d body).Url = d.WebhookURL ∧
      (Notify.cmd d body).HttpMethod = "POST" ∧
      (Notify.cmd d body).ContentType = "application/json" ∧
      (Notify.cmd d body).Body = body ∧
      (env.DispatchCtx (Notify.cmd d body) = none →
        (Notify env d ctx as).delivered = true ∧ (Notify env d ctx as).err = none) ∧
      (∀ err, env.DispatchCtx (Notify.cmd d body) = some err →
        (Notify env d ctx as).delivered = false ∧ (Notify env d ctx as).err = some err) ∧
      ((Notify env d ctx as).delivered = true ↔ (Notify env d ctx as).err = none) := by
  have hb : Notify.build env d ctx as = Except.ok
      ((Notify.assemble env d ctx as).bodyJSON.Set "embeds"
        (Json.arr [(Notify.assemble env d ctx as).embed.Set "url" (Json.str ruleURL)])) :=
    (build_ok_iff env d ctx as _).2 ⟨ruleURL, hjoin, htmpl, rfl⟩
  refine ⟨?_, rfl, rfl, rfl, rfl, ?_⟩
  · cases hd : env.DispatchCtx (Notify.cmd d body) with
    | none => simp [Notify, hb, hmarshal, Notify.cmd] at hd ⊢; simp [hd, Notify.cmd]
    | some e => simp [Notify, hb, hmarshal, Notify.cmd] at hd ⊢; simp [hd, Notify.cmd]
  · cases hd : env.DispatchCtx (Notify.cmd d body) with
    | none => simp [Notify, hb, hmarshal, Notify.cmd] at hd ⊢; simp [hd]
    | some e => simp [Notify, hb, hmarshal, Notify.cmd] at hd ⊢; simp [hd]

/-- C2 on the test "Default config with one alert", with a transport that refuses: one
`POST` to the webhook, and `(false, err)` with the error of the transport. -/
theorem Notify_dispatch_witness :
    (Notify downEnv (notifierOf testTmpl defaultMessage "" "http://hook") testCtx
        [testAlert]).sent.map (fun c => (c.Url, c.HttpMethod, c.ContentType)) =
      [("http://hook", "POST", "application/json")] ∧
    (Notify downEnv (notifierOf testTmpl defaultMessage "" "http://hook") testCtx
        [testAlert]).delivered = false ∧
    (Notify downEnv (notifierOf testTmpl defaultMessage "" "http://hook") testCtx
        [testAlert]).err = some (Error.foreign "connection refused") := by
  obtain ⟨hsent, _, _, _, _, _, hfail, _⟩ :=
    Notify_dispatch downEnv (notifierOf testTmpl defaultMessage "" "http://hook") testCtx
      [testAlert] "http://localhost/alerting/list" _ rfl rfl rfl
  exact ⟨by rw [hsent]; rfl, hfail _ rfl⟩

/-- C5: when the payload build fails (the URL join fails, a template render has set the
error slot, or the serialisation fails), `Notify` returns `false` with an error and hands
nothing to the transport. -/
theorem Notify_build_failure (env : Env) (d : DiscordNotifier) (ctx : Context)
    (as : List Alert)
    (h : (∃ err, env.joinUrlPath d.tmpl.ExternalURL "/alerting/list" =
            Except.error err) ∨
         (∃ err, (Notify.assemble env d ctx as).tmplErr = some err) ∨
         (∃ bodyJSON err, Notify.build env d ctx as = Except.ok bodyJSON ∧
            env.Marshal bodyJSON = Except.error err)) :
    (Notify env d ctx as).delivered = false ∧ (Notify env d ctx as).err ≠ none ∧
      (Notify env d ctx as).sent = [] := by
  rcases h with ⟨err, hj⟩ | ⟨err, ht⟩ | ⟨bodyJSON, err, hb, hm⟩
  · rw [Notify_of_build_error env d ctx as err (build_join_error env d ctx as err hj)]
    simp
  · cases hj : env.joinUrlPath d.tmpl.ExternalURL "/alerting/list" with
    | error e =>
      rw [Notify_of_build_error env d ctx as e (build_join_error env d ctx as e hj)]
      simp
    | ok ruleURL =>
      rw [Notify_of_build_error env d ctx as _ (build_tmpl_error env d ctx as ruleURL err hj ht)]
      simp
  · simp [Notify, hb, hm]

/-- C5 on the test "Error in building messsage": the broken message sets the error slot,
`Notify` returns `false` with an error and sends nothing. -/
theorem Notify_build_failure_witness :
    (Notify testEnv (notifierOf testTmpl brokenMessage "" "http://localhost") testCtx
        [testAlert]).delivered = false ∧
    (Notify testEnv (notifierOf testTmpl brokenMessage "" "http://localhost") testCtx
        [testAlert]).err ≠ none ∧
    (Notify testEnv (notifierOf testTmpl brokenMessage "" "http://localhost") testCtx
        [testAlert]).sent = [] :=
  Notify_build_failure testEnv (notifierOf testTmpl brokenMessage "" "http://localhost")
    testCtx [testAlert] (Or.inr (Or.inl ⟨_, rfl⟩))

/-- C10: when joining the external URL with `/alerting/list` fails, `Notify` returns
`false` with that very error, not wrapped, and sends nothing, whatever the error slot of
the template pass holds. -/
theorem Notify_join_error (env : Env) (d : DiscordNotifier) (ctx : Context) (as : List Alert)
    (err : Error)
    (hjoin : env.joinUrlPath d.tmpl.ExternalURL "/alerting/list" = Except.error err) :
    Notify env d ctx as = { delivered := false, err := some err, sent := [], logged := [] } :=
  Notify_of_build_error env d ctx as err (build_join_error env d ctx as err hjoin)

/-- C10 where the message template fails as well: the error slot is set, and the error
returned is the one of the join. -/
theorem Notify_join_error_witness :
    (Notify.assemble testEnv
        (notifierOf { ExternalURL := badURL, id := 0 } brokenMessage "" "http://localhost")
        testCtx [testAlert]).tmplErr =
      some (Error.foreign "template: :1: unexpected \"\x7d\" in operand") ∧
    Notify testEnv
        (notifierOf { ExternalURL := badURL, id := 0 } brokenMessage "" "http://localhost")
        testCtx [testAlert] =
      { delivered := false
        err := some (Error.foreign "parse \"http://local%20host\": invalid URL escape \"%20\"")
        sent := []
        logged := [] } :=
  ⟨rfl, Notify_join_error testEnv
    (notifierOf { ExternalURL := badURL, id := 0 } brokenMessage "" "http://localhost")
    testCtx [testAlert] _ rfl⟩

/-- C4, as stated, fails: the message template of the notifier fails to parse, yet the
error `Notify` returns is the one of the URL join, whose text is not
"failed to template discord message: " followed by the text of the template error. -/
theorem Notify_template_error_hidden_by_join :
    (ExecuteTextString testEnv { ExternalURL := badURL, id := 0 } testCtx [testAlert]
        brokenMessage).2 =
      some (Error.foreign "template: :1: unexpected \"\x7d\" in operand") ∧
    ((Notify testEnv
        (notifierOf { ExternalURL := badURL, id := 0 } brokenMessage "" "http://localhost")
        testCtx [testAlert]).err.map Error.Error) =
      some "parse \"http://local%20host\": invalid URL escape \"%20\"" ∧
    ((Notify testEnv
        (notifierOf { ExternalURL := badURL, id := 0 } brokenMessage "" "http://localhost")
        testCtx [testAlert]).err.map Error.Error) ≠
      some ("failed to template discord message: "
        ++ "template: :1: unexpected \"\x7d\" in operand") := by
  refine ⟨rfl, rfl, ?_⟩
  decide

/-- C4, amended: when the message template of the notifier fails to parse or evaluate and
the external URL joins with `/alerting/list`, `Notify` returns `false`, sends nothing, and
its error is the template error wrapped, with the text
"failed to template discord message: " followed by the text of the template error. -/
theorem Notify_template_error (env : Env) (d : DiscordNotifier) (ctx : Context)
    (as : List Alert) (err : Error) (ruleURL : String)
    (htmpl : (ExecuteTextString env d.tmpl ctx as d.Content).2 = some err)
    (hjoin : env.joinUrlPath d.tmpl.ExternalURL "/alerting/list" = Except.ok ruleURL) :
    Notify env d ctx as =
        { delivered := false
          err := some (Error.Errorf "failed to template discord message: " err)
          sent := []
          logged := [] } ∧
      (Error.Errorf "failed to template discord message: " err).Error =
        "failed to template discord message: " ++ err.Error :=
  ⟨Notify_of_build_error env d ctx as _
      (build_tmpl_error env d ctx as ruleURL err hjoin (assemble_content_err env d ctx as err htmpl)),
    rfl⟩

/-- C4 amended, on the test "Error in building messsage": the text of the error. -/
theorem Notify_template_error_witness :
    (Notify testEnv (notifierOf testTmpl brokenMessage "" "http://localhost") testCtx
        [testAlert]).delivered = false ∧
    ((Notify testEnv (notifierOf testTmpl brokenMessage "" "http://localhost") testCtx
        [testAlert]).err.map Error.Error) =
      some "failed to template discord message: template: :1: unexpected \"\x7d\" in operand" := by
  obtain ⟨h, _⟩ :=
    Notify_template_error testEnv (notifierOf testTmpl brokenMessage "" "http://localhost")
      testCtx [testAlert] (Error.foreign "template: :1: unexpected \"\x7d\" in operand")
      "http://localhost/alerting/list" rfl rfl
  rw [h]
  exact ⟨rfl, by decide⟩

/-! ## `Notify`: the payload that was sent -/

/-- A delivery means the build and the serialisation succeeded and one command went out. -/
theorem Notify_delivered (env : Env) (d : DiscordNotifier) (ctx : Context) (as : List Alert)
    (hok : (Notify env d ctx as).delivered = true) :
    ∃ bodyJSON body, Notify.build env d ctx as = Except.ok bodyJSON ∧
      env.Marshal bodyJSON = Except.ok body ∧
      (Notify env d ctx as).sent = [Notify.cmd d body] := by
  cases hb : Notify.build env d ctx as with
  | error e => simp [Notify, hb] at hok
  | ok bodyJSON =>
    cases hm : env.Marshal bodyJSON with
    | error e => simp [Notify, hb, hm] at hok
    | ok body =>
      refine ⟨bodyJSON, body, rfl, hm, ?_⟩
      cases hd : env.DispatchCtx (Notify.cmd d body) with
      | none => simp [Notify, hb, hm, Notify.cmd] at hd ⊢; simp [hd]
      | some e => simp [Notify, hb, hm, Notify.cmd] at hd hok ⊢; simp [hd] at hok

/-- The body of the pass is a map. -/
theorem assemble_bodyJSON_obj (env : Env) (d : DiscordNotifier) (ctx : Context)
    (as : List Alert) : ∃ kvs, (Notify.assemble env d ctx as).bodyJSON = Json.obj kvs := by
  obtain ⟨c, a, h⟩ := assemble_bodyJSON env d ctx as
  exact ⟨_, h⟩

/-- Setting the embeds leaves the other keys of the body as the pass wrote them. -/
theorem payload_CheckGet (env : Env) (d : DiscordNotifier) (ctx : Context) (as : List Alert)
    (embeds : Json) (key : String) (hkey : key ≠ "embeds") :
    ((Notify.assemble env d ctx as).bodyJSON.Set "embeds" embeds).CheckGet key =
      (Notify.assemble env d ctx as).bodyJSON.CheckGet key := by
  obtain ⟨kvs, h⟩ := assemble_bodyJSON_obj env d ctx as
  rw [h]
  exact CheckGet_Set_other kvs "embeds" key embeds hkey

/-- The first embed of the payload is the embed of the pass with its URL set. -/
theorem payload_firstEmbed (env : Env) (d : DiscordNotifier) (ctx : Context) (as : List Alert)
    (embed : Json) :
    firstEmbed ((Notify.assemble env d ctx as).bodyJSON.Set "embeds" (Json.arr [embed])) =
      embed := by
  obtain ⟨kvs, h⟩ := assemble_bodyJSON_obj env d ctx as
  rw [h]
  simp [firstEmbed, Json.Get, CheckGet_Set_same]

/-- The URL of the embed is the joined URL. -/
theorem embed_url (env : Env) (d : DiscordNotifier) (ctx : Context) (as : List Alert)
    (ruleURL : String) :
    ((Notify.assemble env d ctx as).embed.Set "url" (Json.str ruleURL)).CheckGet "url" =
      some (Json.str ruleURL) := by
  obtain ⟨title, h⟩ := assemble_embed env d ctx as
  rw [h]
  exact CheckGet_Set_same _ _ _

/-- The colour of the embed is the one computed from the status, joined URL or not. -/
theorem embed_color (env : Env) (d : DiscordNotifier) (ctx : Context) (as : List Alert)
    (ruleURL : String) :
    ((Notify.assemble env d ctx as).embed.Set "url" (Json.str ruleURL)).CheckGet "color" =
      some (Json.num (colorOf (Alerts.Status as))) := by
  obtain ⟨title, h⟩ := assemble_embed env d ctx as
  rw [h, CheckGet_Set_other _ _ _ _ (by decide)]
  rfl

/-- The two colours. -/
theorem colorOf_eq (status : AlertStatus) :
    colorOf status = if status = AlertStatus.firing then 14037554 else 3581519 := by
  cases status <;> decide

/-- What `NewDiscordNotifier` builds from settings that hold only a webhook url. -/
theorem NewDiscordNotifier_url_only (model : NotificationChannelConfig) (t : Template)
    (u : String) (d : DiscordNotifier)
    (hs : model.Settings = some (Json.obj [("url", Json.str u)]))
    (hd : NewDiscordNotifier model t = Except.ok d) :
    u ≠ "" ∧ d.Content = defaultMessage ∧ d.AvatarURL = "" ∧ d.WebhookURL = u ∧ d.tmpl = t := by
  have hurl : ((Json.obj [("url", Json.str u)]).Get "url").MustString "" = u := by
    simp [Json.Get, Json.CheckGet, Json.Map, List.lookup, Json.MustString, Json.String?]
  have hav : ((Json.obj [("url", Json.str u)]).Get "avatar_url").MustString "" = "" := by
    simp [Json.Get, Json.CheckGet, Json.Map, List.lookup, Json.MustString, Json.String?]
  have hmsg : ((Json.obj [("url", Json.str u)]).Get "message").MustString defaultMessage =
      defaultMessage := by
    simp [Json.Get, Json.CheckGet, Json.Map, List.lookup, Json.MustString, Json.String?]
  by_cases hu : u = ""
  · subst hu
    simp [NewDiscordNotifier, hs, hurl] at hd
  · simp only [NewDiscordNotifier, hs, hurl, hu, if_false, hav, hmsg, Except.ok.injEq] at hd
    subst hd
    exact ⟨hu, rfl, rfl, rfl, rfl⟩

/-- C1: for a notifier built by `NewDiscordNotifier` from settings that hold only a webhook
url, and every alert group, a successful `Notify` sends the serialisation of a payload whose
`username` is "Grafana", whose `content` is the render of the default message template and
whose first embed has for `url` the external URL followed by `/alerting/list`, the join of
the URL being the one of the spec. -/
theorem Notify_default_payload (env : Env) (parse : String → Option Error)
    (model : NotificationChannelConfig) (t : Template) (u : String) (d : DiscordNotifier)
    (ctx : Context) (as : List Alert)
    (hs : model.Settings = some (Json.obj [("url", Json.str u)]))
    (hd : NewDiscordNotifier model t = Except.ok d)
    (hjoin : env.joinUrlPath = joinUrlPath parse)
    (hok : (Notify env d ctx as).delivered = true) :
    ∃ bodyJSON body,
      Notify.build env d ctx as = Except.ok bodyJSON ∧
      env.Marshal bodyJSON = Except.ok body ∧
      (Notify env d ctx as).sent = [Notify.cmd d body] ∧
      bodyJSON.CheckGet "username" = some (Json.str "Grafana") ∧
      bodyJSON.CheckGet "content" =
        some (Json.str (ExecuteTextString env t ctx as defaultMessage).1) ∧
      (firstEmbed bodyJSON).CheckGet "url" =
        some (Json.str (t.ExternalURL ++ "/alerting/list")) := by
  obtain ⟨_, hcontent, _, _, htmpl⟩ := NewDiscordNotifier_url_only model t u d hs hd
  obtain ⟨bodyJSON, body, hb, hm, hsent⟩ := Notify_delivered env d ctx as hok
  refine ⟨bodyJSON, body, hb, hm, hsent, ?_⟩
  obtain ⟨ruleURL, hj, _, hbody⟩ := (build_ok_iff env d ctx as bodyJSON).1 hb
  have hrule : ruleURL = t.ExternalURL ++ "/alerting/list" := by
    rw [hjoin, htmpl] at hj
    unfold joinUrlPath at hj
    cases hp : parse t.ExternalURL with
    | none => simpa [hp] using hj.symm
    | some e => simp [hp] at hj
  subst hbody
  refine ⟨?_, ?_, ?_⟩
  · rw [payload_CheckGet env d ctx as _ "username" (by decide)]
    exact assemble_username env d ctx as
  · rw [payload_CheckGet env d ctx as _ "content" (by decide), assemble_content, hcontent, htmpl]
    simp [defaultMessage]
  · rw [payload_firstEmbed, embed_url, hrule]

/-- C1 on the test "Default config with one alert": the notifier is the one built from
`{"url": "http://localhost"}`, and the payload has the username, the content and the URL
`http://localhost/alerting/list` that the test expects. -/
theorem Notify_default_payload_witness :
    ∃ d bodyJSON,
      NewDiscordNotifier (testModel (Json.obj [("url", Json.str "http://localhost")]))
        testTmpl = Except.ok d ∧
      Notify.build testEnv d testCtx [testAlert] = Except.ok bodyJSON ∧
      bodyJSON.CheckGet "username" = some (Json.str "Grafana") ∧
      bodyJSON.CheckGet "content" = some (Json.str
        "\n**Firing**\nLabels:\n - alertname = alert1\n - lbl1 = val1\nAnnotations:\n - ann1 = annv1\nSource: \n\n\n\n\n") ∧
      (firstEmbed bodyJSON).CheckGet "url" =
        some (Json.str "http://localhost/alerting/list") := by
  obtain ⟨bodyJSON, body, hb, _, _, hname, hcontent, hurl⟩ :=
    Notify_default_payload testEnv testParse
      (testModel (Json.obj [("url", Json.str "http://localhost")])) testTmpl
      "http://localhost" _ testCtx [testAlert] rfl rfl rfl rfl
  exact ⟨_, bodyJSON, rfl, hb, hname, hcontent, hurl⟩

/-- C7: when `Notify` succeeds, the payload it serialised and sent has the key `content`
exactly when the message of the notifier is not empty, its value being the render of the
message, and the key `avatar_url` exactly when the avatar URL of the notifier is not empty,
its value being the render of the avatar URL. -/
theorem Notify_optional_keys (env : Env) (d : DiscordNotifier) (ctx : Context)
    (as : List Alert) (hok : (Notify env d ctx as).delivered = true) :
    ∃ bodyJSON body,
      Notify.build env d ctx as = Except.ok bodyJSON ∧
      env.Marshal bodyJSON = Except.ok body ∧
      (Notify env d ctx as).sent = [Notify.cmd d body] ∧
      (d.Content ≠ "" → bodyJSON.CheckGet "content" =
        some (Json.str (ExecuteTextString env d.tmpl ctx as d.Content).1)) ∧
      (d.Content = "" → bodyJSON.CheckGet "content" = none) ∧
      (d.AvatarURL ≠ "" → bodyJSON.CheckGet "avatar_url" =
        some (Json.str (ExecuteTextString env d.tmpl ctx as d.AvatarURL).1)) ∧
      (d.AvatarURL = "" → bodyJSON.CheckGet "avatar_url" = none) := by
  obtain ⟨bodyJSON, body, hb, hm, hsent⟩ := Notify_delivered env d ctx as hok
  refine ⟨bodyJSON, body, hb, hm, hsent, ?_⟩
  obtain ⟨ruleURL, _, htmpl, hbody⟩ := (build_ok_iff env d ctx as bodyJSON).1 hb
  subst hbody
  rw [payload_CheckGet env d ctx as _ "content" (by decide),
    payload_CheckGet env d ctx as _ "avatar_url" (by decide), assemble_content,
    assemble_avatar env d ctx as htmpl]
  refine ⟨?_, ?_, ?_, ?_⟩ <;> intro h <;> simp [h]

/-- C7 on the test "Custom config with multiple alerts": both keys are there, with the
rendered message and the avatar URL. -/
theorem Notify_optional_keys_witness :
    ∃ bodyJSON,
      Notify.build testEnv
        (notifierOf testTmpl countMessage "https://grafana.com/assets/img/fav32.png"
          "http://localhost") testCtx [testAlert, testAlert2] = Except.ok bodyJSON ∧
      bodyJSON.CheckGet "content" = some (Json.str "2 alerts are firing, 0 are resolved") ∧
      bodyJSON.CheckGet "avatar_url" =
        some (Json.str "https://grafana.com/assets/img/fav32.png") := by
  obtain ⟨bodyJSON, body, hb, _, _, hcontent, _, havatar, _⟩ :=
    Notify_optional_keys testEnv
      (notifierOf testTmpl countMessage "https://grafana.com/assets/img/fav32.png"
        "http://localhost") testCtx [testAlert, testAlert2] rfl
  exact ⟨bodyJSON, hb, hcontent (by decide), havatar (by decide)⟩

/-- C6: the colour of the embed is a function of the status of the alert group alone:
`14037554`, the value of `D63232` read in base 16 once the leading `#` is stripped, for a
firing group, and `3581519`, a different number, for a resolved one. It is set in every
pass and in the first embed of every payload built, and a build that fails fails with the
error of the URL join or with the wrapped template error, never for the colour. -/
theorem Notify_color (env : Env) (d : DiscordNotifier) (ctx : Context) (as : List Alert) :
    (Notify.assemble env d ctx as).embed.CheckGet "color" =
        some (Json.num (if Alerts.Status as = AlertStatus.firing then 14037554 else 3581519)) ∧
      (∀ bodyJSON, Notify.build env d ctx as = Except.ok bodyJSON →
        (firstEmbed bodyJSON).CheckGet "color" =
          some (Json.num
            (if Alerts.Status as = AlertStatus.firing then 14037554 else 3581519))) ∧
      (∀ err, Notify.build env d ctx as = Except.error err →
        env.joinUrlPath d.tmpl.ExternalURL "/alerting/list" = Except.error err ∨
        ∃ tmplErr, (Notify.assemble env d ctx as).tmplErr = some tmplErr ∧
          err = Error.Errorf "failed to template discord message: " tmplErr) ∧
      TrimLeft (getAlertStatusColor AlertStatus.firing) "#" = "D63232" ∧
      ParseInt "D63232" 16 = (14037554, none) ∧
      (3581519 : Int) ≠ 14037554 := by
  refine ⟨?_, ?_, ?_, by decide, by decide, by decide⟩
  · obtain ⟨title, h⟩ := assemble_embed env d ctx as
    rw [h, ← colorOf_eq]
    rfl
  · intro bodyJSON hb
    obtain ⟨ruleURL, _, _, hbody⟩ := (build_ok_iff env d ctx as bodyJSON).1 hb
    subst hbody
    rw [payload_firstEmbed, embed_color, colorOf_eq]
  · intro err hb
    unfold Notify.build at hb
    cases hj : env.joinUrlPath d.tmpl.ExternalURL "/alerting/list" with
    | error e =>
      left
      simpa [hj] using hb
    | ok ruleURL =>
      right
      cases ht : (Notify.assemble env d ctx as).tmplErr with
      | none => simp [hj, ht] at hb
      | some e =>
        refine ⟨e, rfl, ?_⟩
        simpa [hj, ht] using hb.symm

end Discord
